import Mathlib

/-
Verification of the test-fixture token generator (src/bin/generate_token.py)
and the spreadsheet fixture script (src/tests/create_test_excel.py).

The claim builder and signer of generate_token.py are embedded as pure
functions.  The single wall-clock reading `now = datetime.utcnow()` is made
explicit as a rational parameter `t` holding the reading in epoch seconds,
and Python `int(...)` applied to a timestamp is embedded as truncation
toward zero.  Claim sets are insertion-ordered association lists from claim
name to JSON value, matching Python dict insertion order.
-/

/-- JSON-representable claim values occurring in the payloads of
generate_token.py: strings and integers. -/
inductive JVal where
  | s (v : String)
  | n (v : Int)
deriving DecidableEq, Repr

/-- Python int() applied to a real-valued timestamp truncates toward zero
(floor for nonnegative readings, ceiling for negative ones). -/
def int_trunc (q : ℚ) : Int := if 0 ≤ q then ⌊q⌋ else ⌈q⌉

/-- Dictionary key access on a claim set represented as an insertion-ordered
association list: the value at the first matching key, if any. -/
def lookupClaim (k : String) : List (String × JVal) → Option JVal
  | [] => none
  | p :: rest => if k = p.1 then some p.2 else lookupClaim k rest

/-- Modelled from the spec: the compact signed token produced by PyJWT
jwt.encode, which is not part of this repository.  Per spec section 4.2 the
token is a deterministic serialization of the claim set together with an
HMAC-SHA256 tag keyed by the secret; we carry the claim set and the key of
the tag, which is exactly the information decode recovers or checks. -/
structure Token where
  payload : List (String × JVal)
  tag : String
deriving DecidableEq, Repr

/-- Modelled from the spec: jwt.encode(payload, secret, algorithm=HS256).
The entropy argument stands for any ambient randomness available at the
call; HMAC-SHA256 signing consumes none of it, so the result does not
depend on it. -/
def jwt_encode (payload : List (String × JVal)) (secret : String)
    (_entropy : Nat) : Token :=
  { payload := payload, tag := secret }

/-- Modelled from the spec: the implicit inverse operation, decode, which
verifies the tag against the supplied secret and, on success, returns the
embedded claim set. -/
def jwt_decode (tok : Token) (secret : String) : Option (List (String × JVal)) :=
  if tok.tag = secret then some tok.payload else none

/-- Hardcoded ACCESS_SECRET of generate_token.py (line 11). -/
def SECRET : String := "super-secret-access"

/-- Embedding of generate_token (generate_token.py lines 13-47).  `t` is the
single datetime.utcnow() reading, in epoch seconds; `entropy` is ambient
randomness (unused, the function draws no random values).  The payload dict
is built with keys sub, email, role, exp, iat, then each scope id key is
appended only when the corresponding argument is not None.  Returns the
pair (token, payload) as the source does. -/
def generate_token (t : ℚ) (entropy : Nat) (role : String) (user_id : Int)
    (email : String) (university_id : Option Int) (branch_id : Option Int)
    (faculty_id : Option Int) : Token × List (String × JVal) :=
  let payload0 : List (String × JVal) :=
    [("sub", JVal.s (toString user_id)), ("email", JVal.s email),
     ("role", JVal.s role), ("exp", JVal.n (int_trunc (t + 86400))),
     ("iat", JVal.n (int_trunc t))]
  let payload1 := match university_id with
    | some v => payload0 ++ [("university_id", JVal.n v)]
    | none => payload0
  let payload2 := match branch_id with
    | some v => payload1 ++ [("branch_id", JVal.n v)]
    | none => payload1
  let payload3 := match faculty_id with
    | some v => payload2 ++ [("faculty_id", JVal.n v)]
    | none => payload2
  (jwt_encode payload3 SECRET entropy, payload3)

/-- The Python default arguments of generate_token (line 13-14): role
"superadmin", user_id 1, email "test@example.com", and all three scope ids
absent. -/
def generate_token_defaults (t : ℚ) (entropy : Nat) :
    Token × List (String × JVal) :=
  generate_token t entropy "superadmin" 1 "test@example.com" none none none

/-- Observable terminations of one script run. -/
inductive ScriptOutcome where
  | completed
  | exitWithMessage (msg : List String) (code : Nat)
  | uncaughtException (excName : String)
deriving DecidableEq, Repr

/-- Module-level control flow of generate_token.py as a function of whether
the PyJWT dependency is installed.  Line 6 runs `import jwt` unguarded at
the top of the module, before the guarded re-import inside the main block
(lines 92-96), so when PyJWT is missing the interpreter raises an uncaught
ModuleNotFoundError at line 6 and the remediation branch never runs. -/
def generate_token_script (jwt_available : Bool) : ScriptOutcome :=
  if jwt_available then ScriptOutcome.completed
  else ScriptOutcome.uncaughtException "ModuleNotFoundError"

/-- Module-level control flow of create_test_excel.py: the openpyxl import
(lines 4-8) is wrapped in try/except ImportError, printing a remediation
message and calling exit(1) when the dependency is missing. -/
def create_test_excel_script (openpyxl_available : Bool) : ScriptOutcome :=
  if openpyxl_available then ScriptOutcome.completed
  else ScriptOutcome.exitWithMessage
    ["❌ Установите openpyxl: pip install openpyxl"] 1

/-- The fixed 18-column header row of create_test_excel.py (lines 15-20). -/
def headers : List String :=
  ["Phone1", "MaxID", "INN_Ref", "FOIV", "OrgName", "Branch",
   "INN", "KPP", "Faculty", "Course", "Group", "ChatName",
   "Phone2", "FileName", "ChatID", "Link", "AddUser", "AddAdmin"]

/-- The constant data row of create_test_excel.py (lines 25-32); every cell
is a Python string literal, appended to the worksheet unmodified. -/
def data_row : List String :=
  ["79884753064", "496728250", "105014177", "Минобрнауки России",
   "МГТУ", "Головной филиал", "105014177", "10501001",
   "Политехнический колледж МГТУ", "2", "Колледж ИП-22",
   "Колледж ИП-22 (2024 ОФО МГТУ", "79884753064", "file.xlsx",
   "-69257108032233", "https://max.ru/join/test", "ИСТИНА", "ИСТИНА"]

/-- The worksheet contents after the two ws.append calls: header first,
then the data row, each passed through as-is. -/
def sheet_rows : List (List String) := [headers, data_row]

lemma floor_le_int_trunc (q : ℚ) : ⌊q⌋ ≤ int_trunc q := by
  unfold int_trunc
  split
  · exact le_refl _
  · exact Int.floor_le_ceil q

lemma int_trunc_le_ceil (q : ℚ) : int_trunc q ≤ ⌈q⌉ := by
  unfold int_trunc
  split
  · exact Int.floor_le_ceil q
  · exact le_refl _

lemma int_trunc_of_nonneg {q : ℚ} (h : 0 ≤ q) : int_trunc q = ⌊q⌋ :=
  if_pos h

lemma floor_add_86400 (t : ℚ) : ⌊t + 86400⌋ = ⌊t⌋ + 86400 := by
  rw [show (86400 : ℚ) = ((86400 : ℤ) : ℚ) by norm_num, Int.floor_add_int]

/-- C1: decoding with the same secret the token produced by signing the
built claim set returns exactly that claim set: the round trip
decode(sign(build(...)), secret) is the identity on the built claim set,
for every role, user id, email, scope id combination, clock reading and
ambient entropy. -/
theorem decode_sign_roundtrip (t : ℚ) (e : Nat) (role : String) (uid : Int)
    (email : String) (u b f : Option Int) :
    jwt_decode (generate_token t e role uid email u b f).1 SECRET
      = some (generate_token t e role uid email u b f).2 := by
  simp [generate_token, jwt_encode, jwt_decode]

/-- C6: signing is deterministic — the signer consumes no randomness, so
signing one claim set with one secret yields the identical token across any
two runs, whatever ambient entropy each run had. -/
theorem sign_deterministic (p : List (String × JVal)) (s : String)
    (e1 e2 : Nat) : jwt_encode p s e1 = jwt_encode p s e2 := rfl

/-- C8: the fixture header has exactly 18 columns, the constant data row
has exactly 18 values matching the header positionally, and the worksheet
receives exactly these two rows unmodified, every invocation. -/
theorem fixture_row_matches_header :
    headers.length = 18 ∧ data_row.length = 18 ∧
      sheet_rows = [headers, data_row] :=
  ⟨rfl, rfl, rfl⟩

/-- C5: evaluating the scripts with the signing or spreadsheet dependency
missing: generate_token.py dies with an uncaught ModuleNotFoundError at its
unguarded top-level import, never reaching its remediation branch, while
create_test_excel.py prints the install instruction and exits 1. -/
theorem missing_dependency_outcomes :
    generate_token_script false
        = ScriptOutcome.uncaughtException "ModuleNotFoundError" ∧
      create_test_excel_script false
        = ScriptOutcome.exitWithMessage
            ["❌ Установите openpyxl: pip install openpyxl"] 1 :=
  ⟨rfl, rfl⟩

/-- C2 counterexample: at instant T = 0 the claim set built for role
operator, user 1, university 1 does not map exp to T + 3600 — the code adds
timedelta(hours=24), not one hour. -/
theorem operator_one_hour_exp_refuted :
    lookupClaim "exp"
        (generate_token 0 0 "operator" 1 "operator@example.com"
          (some 1) none none).2
      ≠ some (JVal.n 3600) := by
  have h2 : int_trunc (86400 : ℚ) = 86400 := by
    rw [int_trunc_of_nonneg (by norm_num),
      show (86400 : ℚ) = ((86400 : ℤ) : ℚ) by norm_num, Int.floor_intCast]
  simp [generate_token, lookupClaim, h2]

/-- C2 amended: building with role operator, userId 1,
email operator@example.com, universityId 1 at any nonnegative instant t
yields exactly the claim set with sub "1", the email, the role,
exp = floor t + 86400 and iat = floor t (a fixed 24-hour window; the code
has no validity parameter), and university_id 1. -/
theorem operator_university_payload (t : ℚ) (e : Nat) (h : 0 ≤ t) :
    (generate_token t e "operator" 1 "operator@example.com"
        (some 1) none none).2
      = [("sub", JVal.s "1"), ("email", JVal.s "operator@example.com"),
         ("role", JVal.s "operator"), ("exp", JVal.n (⌊t⌋ + 86400)),
         ("iat", JVal.n ⌊t⌋), ("university_id", JVal.n 1)] := by
  have h1 : int_trunc t = ⌊t⌋ := int_trunc_of_nonneg h
  have h2 : int_trunc (t + 86400) = ⌊t⌋ + 86400 := by
    rw [int_trunc_of_nonneg (by linarith), floor_add_86400]
  have h3 : toString (1 : Int) = "1" := rfl
  simp [generate_token, h1, h2, h3]

theorem operator_university_payload_witness :
    (generate_token 12345 0 "operator" 1 "operator@example.com"
        (some 1) none none).2
      = [("sub", JVal.s "1"), ("email", JVal.s "operator@example.com"),
         ("role", JVal.s "operator"), ("exp", JVal.n 98745),
         ("iat", JVal.n 12345), ("university_id", JVal.n 1)] := by
  have h := operator_university_payload 12345 0 (by norm_num)
  rw [h]
  norm_num

/-- C3: for every invocation of the claim builder — any role, user id,
email, scope ids — both temporal claims are computed from the one clock
reading t, and expires-at is strictly greater than issued-at. -/
theorem exp_strictly_after_iat (t : ℚ) (e : Nat) (role : String)
    (uid : Int) (email : String) (u b f : Option Int) :
    ∃ i x : Int,
      lookupClaim "iat" (generate_token t e role uid email u b f).2
          = some (JVal.n i) ∧
        lookupClaim "exp" (generate_token t e role uid email u b f).2
          = some (JVal.n x) ∧
        i < x := by
  refine ⟨int_trunc t, int_trunc (t + 86400), ?_, ?_, ?_⟩
  · rcases u with _ | u <;> rcases b with _ | b <;> rcases f with _ | f <;>
      simp [generate_token, lookupClaim]
  · rcases u with _ | u <;> rcases b with _ | b <;> rcases f with _ | f <;>
      simp [generate_token, lookupClaim]
  · have hA : ⌊t⌋ + 86400 ≤ int_trunc (t + 86400) := by
      have := floor_le_int_trunc (t + 86400)
      rw [floor_add_86400] at this
      exact this
    have hB : int_trunc t ≤ ⌊t⌋ + 1 :=
      le_trans (int_trunc_le_ceil t) (Int.ceil_le_floor_add_one t)
    linarith

/-- C4: a scope id key appears in the built claim set exactly when the
caller supplied a value for it, carrying exactly that value (so zero is
included and distinguishable from absence), and an absent scope id key does
not appear at all. -/
theorem scope_ids_iff_supplied (t : ℚ) (e : Nat) (role : String)
    (uid : Int) (email : String) (u b f : Option Int) :
    lookupClaim "university_id" (generate_token t e role uid email u b f).2
        = u.map JVal.n ∧
      lookupClaim "branch_id" (generate_token t e role uid email u b f).2
        = b.map JVal.n ∧
      lookupClaim "faculty_id" (generate_token t e role uid email u b f).2
        = f.map JVal.n := by
  rcases u with _ | u <;> rcases b with _ | b <;> rcases f with _ | f <;>
    simp [generate_token, lookupClaim]

/-- C7: no invocation of the access-token claim builder ever places a jti
(unique token identifier) key in the claim set. -/
theorem no_jti_in_access_claims (t : ℚ) (e : Nat) (role : String)
    (uid : Int) (email : String) (u b f : Option Int) :
    lookupClaim "jti" (generate_token t e role uid email u b f).2 = none := by
  rcases u with _ | u <;> rcases b with _ | b <;> rcases f with _ | f <;>
    simp [generate_token, lookupClaim]

/-- C9: the validity window is fixed, not caller-suppliable — for every
invocation at a nonnegative clock reading, exp minus iat is exactly
86400 seconds (24 hours), as exact integer arithmetic on epoch seconds. -/
theorem validity_window_24h (t : ℚ) (e : Nat) (role : String) (uid : Int)
    (email : String) (u b f : Option Int) (h : 0 ≤ t) :
    ∃ i x : Int,
      lookupClaim "iat" (generate_token t e role uid email u b f).2
          = some (JVal.n i) ∧
        lookupClaim "exp" (generate_token t e role uid email u b f).2
          = some (JVal.n x) ∧
        x - i = 86400 := by
  refine ⟨⌊t⌋, ⌊t⌋ + 86400, ?_, ?_, by ring⟩
  · rcases u with _ | u <;> rcases b with _ | b <;> rcases f with _ | f <;>
      simp [generate_token, lookupClaim, int_trunc_of_nonneg h]
  · have h2 : int_trunc (t + 86400) = ⌊t⌋ + 86400 := by
      rw [int_trunc_of_nonneg (by linarith), floor_add_86400]
    rcases u with _ | u <;> rcases b with _ | b <;> rcases f with _ | f <;>
      simp [generate_token, lookupClaim, h2]

theorem validity_window_24h_witness :
    ∃ i x : Int,
      lookupClaim "iat"
          (generate_token 1700000000 7 "curator" 2 "curator@example.com"
            (some 1) none none).2
        = some (JVal.n i) ∧
      lookupClaim "exp"
          (generate_token 1700000000 7 "curator" 2 "curator@example.com"
            (some 1) none none).2
        = some (JVal.n x) ∧
      x - i = 86400 :=
  validity_window_24h 1700000000 7 "curator" 2 "curator@example.com"
    (some 1) none none (by norm_num)

/-- C10: calling generate_token with only the ambient clock and entropy —
every Python argument left at its default — yields a claim set with role
superadmin, subject "1", email test@example.com, and none of the three
scope id keys. -/
theorem defaults_payload (t : ℚ) (e : Nat) :
    lookupClaim "role" (generate_token_defaults t e).2
        = some (JVal.s "superadmin") ∧
      lookupClaim "sub" (generate_token_defaults t e).2
        = some (JVal.s "1") ∧
      lookupClaim "email" (generate_token_defaults t e).2
        = some (JVal.s "test@example.com") ∧
      lookupClaim "university_id" (generate_token_defaults t e).2 = none ∧
      lookupClaim "branch_id" (generate_token_defaults t e).2 = none ∧
      lookupClaim "faculty_id" (generate_token_defaults t e).2 = none := by
  have h3 : toString (1 : Int) = "1" := rfl
  simp [generate_token_defaults, generate_token, lookupClaim, h3]
